import Mathlib

/-!
Shallow embedding of the RenderDoc auto-capture helper from
`src/libs/vkd3d-common/renderdoc.c` (vkd3d-proton).

The C code reads two environment variables, parses a shader hash
(`strtoull(env, NULL, 16)`) and a comma-separated list of submission
indices (`strtoul(env, &endp, 0)` in a loop), and gates a monotonic
`uint32_t` submission counter against that list in
`vkd3d_renderdoc_begin_capture`.

Machine integers are modelled as `Nat` with explicit reductions:
the submission counter and the stored counts are `uint32_t`
(reduced mod `2 ^ 32`), the shader hash is `uint64_t`, and
`unsigned long` is modelled as the 64-bit LP64 type of the Linux
build (`ULONG_MAX = 2 ^ 64 - 1`).

The libc functions `strtoul` / `strtoull` are not part of the
repository; they are modelled faithfully after the C standard and
glibc behaviour: leading whitespace skip, optional sign (negation
performed modulo the type for `strtoul`), base detection for base 0
(`0x`/`0X` prefix means hex, a leading `0` means octal, otherwise
decimal), `ERANGE` with a clamped return value on overflow, and
`endp = nptr` with a result of zero when no digits are converted
(glibc does not touch `errno` in that case).

The dynamic-library resolution (`dlopen`/`dlsym`/`GetAPI`) is
external to the repository and is summarised by a single boolean
`api_available`; the opaque RenderDoc API calls themselves touch no
state modelled here.
-/

/-- Modulus of the `uint32_t` type. -/
def UINT32_MOD : Nat := 2 ^ 32

/-- Largest value of `unsigned long` on the LP64 (Linux) build. -/
def ULONG_MAX : Nat := 2 ^ 64 - 1

/-- Whitespace characters recognised by `isspace` in the default C locale. -/
def isSpaceChar (c : Char) : Bool :=
  c == ' ' || c == '\t' || c == '\n' || c == '\x0b' || c == '\x0c' || c == '\r'

/-- Numeric value of a character digit, as used by `strtoul` for bases up
to 36: decimal digits, then case-insensitive letters starting at 10. -/
def digitVal (c : Char) : Option Nat :=
  if '0' ≤ c ∧ c ≤ '9' then some (c.toNat - '0'.toNat)
  else if 'a' ≤ c ∧ c ≤ 'z' then some (c.toNat - 'a'.toNat + 10)
  else if 'A' ≤ c ∧ c ≤ 'Z' then some (c.toNat - 'A'.toNat + 10)
  else none

/-- Skip the leading whitespace of the subject sequence. -/
def skipSpaces : List Char → List Char
  | [] => []
  | c :: rest => if isSpaceChar c then skipSpaces rest else c :: rest

/-- Strip an optional sign character; the boolean records a minus sign. -/
def stripSign (t : List Char) : Bool × List Char :=
  match t with
  | [] => (false, [])
  | c :: rest =>
    if c == '-' then (true, rest)
    else if c == '+' then (false, rest)
    else (false, t)

/-- True when the list starts with a valid base-16 digit. -/
def headIsHexDigit : List Char → Bool
  | [] => false
  | c :: _ =>
    match digitVal c with
    | some d => d < 16
    | none => false

/-- Whether a `0x`/`0X` prefix is consumed: only for base 0 or 16, and
only when a hex digit follows the prefix (otherwise the subject
sequence is just the leading `0`). -/
def hexPrefixApplies (base : Nat) (t : List Char) : Bool :=
  (base == 0 || base == 16) &&
    (match t with
     | c0 :: c1 :: rest => c0 == '0' && (c1 == 'x' || c1 == 'X') && headIsHexDigit rest
     | _ => false)

/-- Base actually used for digit conversion: base 0 auto-detects hex
(`0x` prefix), octal (leading `0`) or decimal. -/
def effectiveBase (base : Nat) (t : List Char) : Nat :=
  if base == 0 then
    if hexPrefixApplies base t then 16
    else
      match t with
      | '0' :: _ => 8
      | _ => 10
  else base

/-- Longest initial run of digits valid in the given base, together with
the remaining characters. -/
def takeDigits (base : Nat) : List Char → List Nat × List Char
  | [] => ([], [])
  | c :: rest =>
    match digitVal c with
    | some d =>
      if d < base then
        let p := takeDigits base rest
        (d :: p.1, p.2)
      else ([], c :: rest)
    | none => ([], c :: rest)

/-- Value of a digit string in the given base. -/
def digitsToNat (base : Nat) (ds : List Nat) : Nat :=
  ds.foldl (fun acc d => acc * base + d) 0

/-- Result of a `strtoul`-family call: the returned value, whether
`errno` was set to `ERANGE`, and the string from `*endp` onward. -/
structure StrtoulResult where
  value : Nat
  erange : Bool
  rest : List Char
deriving DecidableEq, Repr

/-- Model of `strtoul`/`strtoull` with maximum value `maxVal`: skip
whitespace, strip a sign, detect the base, convert the digit run.
When no digits are converted the result is zero, `errno` is untouched
and `endp` is the original pointer; on overflow the result is clamped
to `maxVal` with `ERANGE`; a minus sign negates modulo `maxVal + 1`. -/
def strtoul_model (maxVal base : Nat) (s : List Char) : StrtoulResult :=
  let t0 := skipSpaces s
  let sign := stripSign t0
  let t1 := sign.2
  let t2 := if hexPrefixApplies base t1 then t1.drop 2 else t1
  let b := effectiveBase base t1
  let p := takeDigits b t2
  if p.1 = [] then ⟨0, false, s⟩
  else
    let raw := digitsToNat b p.1
    if raw > maxVal then ⟨maxVal, true, p.2⟩
    else ⟨(if sign.1 then (maxVal + 1 - raw) % (maxVal + 1) else raw), false, p.2⟩

/-- The call `strtoul(env, &endp, 0)` of the counts parser. -/
def strtoul0 (s : List Char) : StrtoulResult :=
  strtoul_model ULONG_MAX 0 s

/-- The call `strtoull(env, NULL, 16)` of the hash parser: only the
returned `uint64_t` value is used. -/
def strtoull16 (s : List Char) : Nat :=
  (strtoul_model (2 ^ 64 - 1) 16 s).value

/-- Result of `vkd3d_renderdoc_init_capture_count_list`: the contents of
the `renderdoc_capture_counts` array and whether an `ERR` line was
emitted. -/
structure CountListResult where
  counts : List Nat
  err : Bool
deriving DecidableEq, Repr

/-- Loop body of `vkd3d_renderdoc_init_capture_count_list`
(renderdoc.c lines 57-83). Each iteration calls `strtoul` with base 0;
on `ERANGE` it breaks without appending; otherwise the converted value
is stored into the `uint32_t` array slot (mod `2 ^ 32`) and the loop
continues past a `,` (`*endp == ','`), breaks with an error on any
other non-terminator character (`*endp != '\0'`), or terminates at the
end of the string. The fuel argument bounds the recursion: every
recursive step consumes at least the comma, so `env.length + 1` units
always suffice (see `capture_count_loop_fuel`). -/
def capture_count_loop : Nat → List Char → List Nat → CountListResult
  | _, [], acc => ⟨acc, false⟩
  | 0, _ :: _, acc => ⟨acc, false⟩
  | fuel + 1, c :: cs, acc =>
    let r := strtoul0 (c :: cs)
    if r.erange then ⟨acc, true⟩
    else
      let acc2 := acc ++ [r.value % UINT32_MOD]
      if r.rest.head? = some ',' then capture_count_loop fuel r.rest.tail acc2
      else if r.rest ≠ [] then ⟨acc2, true⟩
      else ⟨acc2, false⟩

/-- The function `vkd3d_renderdoc_init_capture_count_list` applied to the
value of `VKD3D_AUTO_CAPTURE_COUNTS`, starting from the empty global
array. -/
def vkd3d_renderdoc_init_capture_count_list (env : List Char) : CountListResult :=
  capture_count_loop (env.length + 1) env []

/-- Process-wide state of renderdoc.c: the configured shader hash
(`uint64_t`), the parsed counts array, the active flag, presence of the
resolved RenderDoc API handle, and the static submission counter of
`vkd3d_renderdoc_begin_capture` (`uint32_t`, always `< 2 ^ 32`). -/
structure RenderdocState where
  renderdoc_capture_shader_hash : Nat := 0
  renderdoc_capture_counts : List Nat := []
  vkd3d_renderdoc_is_active : Bool := false
  renderdoc_api : Bool := false
  overall_counter : Nat := 0
deriving DecidableEq, Repr

/-- The linear scan `vkd3d_renderdoc_enable_submit_counter`
(renderdoc.c lines 86-96): true at the first array element equal to
the counter, false after scanning the whole array. -/
def vkd3d_renderdoc_enable_submit_counter : List Nat → Nat → Bool
  | [], _ => false
  | c :: rest, counter =>
    if c = counter then true else vkd3d_renderdoc_enable_submit_counter rest counter

/-- One-time initialisation `vkd3d_renderdoc_init_once`
(renderdoc.c lines 98-174). `env` and `counts` are the values of
`VKD3D_AUTO_CAPTURE_SHADER` and `VKD3D_AUTO_CAPTURE_COUNTS` (`none`
when unset). If both are unset the function returns early and every
global keeps its zero initialiser. Otherwise the hash is parsed in
base 16 when present, the counts list is parsed when present and
defaults to the single-element array `{0}` (the static `zero_count`)
when absent, the active flag is raised, and the RenderDoc library and
its `RENDERDOC_GetAPI` symbol are looked up; `api_available`
summarises whether that whole external resolution chain succeeded
(its failure only leaves the API handle absent). -/
def vkd3d_renderdoc_init_once (env counts : Option (List Char)) (api_available : Bool) :
    RenderdocState :=
  match env, counts with
  | none, none => {}
  | _, _ =>
    let hash := match env with
      | some e => strtoull16 e
      | none => 0
    let cnts := match counts with
      | some c => (vkd3d_renderdoc_init_capture_count_list c).counts
      | none => [0]
    { renderdoc_capture_shader_hash := hash
      renderdoc_capture_counts := cnts
      vkd3d_renderdoc_is_active := true
      renderdoc_api := api_available
      overall_counter := 0 }

/-- The query `vkd3d_renderdoc_active` (renderdoc.c lines 183-186). -/
def vkd3d_renderdoc_active (s : RenderdocState) : Bool :=
  s.vkd3d_renderdoc_is_active

/-- The predicate `vkd3d_renderdoc_should_capture_shader_hash`
(renderdoc.c lines 188-191). Its body is a single return expression,
so the state component of the call is returned unchanged. -/
def vkd3d_renderdoc_should_capture_shader_hash (s : RenderdocState) (hash : Nat) :
    Bool × RenderdocState :=
  ((s.renderdoc_capture_shader_hash == hash) || (s.renderdoc_capture_shader_hash == 0), s)

/-- Submission index observed by a `vkd3d_renderdoc_begin_capture` call
entered in state `s`: the C computes
`vkd3d_atomic_uint32_increment(&overall_counter, relaxed) - 1`, i.e.
the incremented `uint32_t` value minus one in `uint32_t` arithmetic. -/
def begin_capture_observed (s : RenderdocState) : Nat :=
  ((s.overall_counter + 1) % UINT32_MOD + (UINT32_MOD - 1)) % UINT32_MOD

/-- The gate `vkd3d_renderdoc_begin_capture` (renderdoc.c lines 193-205):
increment the `uint32_t` counter, take the pre-increment value as this
call's submission index, and return whether that index is in the
configured array. The conditional `StartFrameCapture` forwarding to the
RenderDoc API modifies no state modelled here and does not affect the
return value. -/
def vkd3d_renderdoc_begin_capture (s : RenderdocState) : Bool × RenderdocState :=
  let s2 : RenderdocState := { s with overall_counter := (s.overall_counter + 1) % UINT32_MOD }
  (vkd3d_renderdoc_enable_submit_counter s2.renderdoc_capture_counts (begin_capture_observed s),
   s2)

/-- The query `vkd3d_renderdoc_loaded_api` (renderdoc.c lines 207-210). -/
def vkd3d_renderdoc_loaded_api (s : RenderdocState) : Bool :=
  s.renderdoc_api

/-- State after `n` sequential `vkd3d_renderdoc_begin_capture` calls. -/
def iterateBeginCapture (s : RenderdocState) : Nat → RenderdocState
  | 0 => s
  | n + 1 => (vkd3d_renderdoc_begin_capture (iterateBeginCapture s n)).2

/-- Return values of `n` sequential `vkd3d_renderdoc_begin_capture`
calls starting in state `s`, in call order. -/
def runBeginCaptures : Nat → RenderdocState → List Bool
  | 0, _ => []
  | n + 1, s =>
    (vkd3d_renderdoc_begin_capture s).1 :: runBeginCaptures n (vkd3d_renderdoc_begin_capture s).2

/-- The decimal token `99999999999999999999` exceeds `ULONG_MAX`, so
`strtoul` reports `ERANGE` on it. -/
def erange_example : List Char :=
  ['9', '9', '9', '9', '9', '9', '9', '9', '9', '9',
   '9', '9', '9', '9', '9', '9', '9', '9', '9', '9']

example :
    (vkd3d_renderdoc_init_capture_count_list ['1', ',', 'x', ',', '3']).counts = [1, 0] := by
  decide

example :
    (vkd3d_renderdoc_init_capture_count_list ['0', ',', '2', ',', '5']).counts = [0, 2, 5] := by
  decide

example :
    (vkd3d_renderdoc_init_capture_count_list ['0', 'x', '1', '0', ',', '2', '0']).counts
      = [16, 20] := by
  decide

example : strtoull16 [] = 0 := by decide

example : strtoull16 ['z'] = 0 := by decide

example :
    runBeginCaptures 7 (vkd3d_renderdoc_init_once none (some ['0', ',', '2', ',', '5']) false)
      = [true, false, true, false, false, true, false] := by
  decide

theorem skipSpaces_length_le (s : List Char) : (skipSpaces s).length ≤ s.length := by
  induction s with
  | nil => simp [skipSpaces]
  | cons c rest ih =>
    simp only [skipSpaces]
    split
    · exact Nat.le_trans ih (Nat.le_succ _)
    · exact Nat.le_refl _

theorem stripSign_snd_length_le (t : List Char) : (stripSign t).2.length ≤ t.length := by
  cases t with
  | nil => simp [stripSign]
  | cons c rest =>
    simp only [stripSign]
    split
    · exact Nat.le_succ _
    · split
      · exact Nat.le_succ _
      · exact Nat.le_refl _

theorem takeDigits_rest_length_le (base : Nat) (s : List Char) :
    (takeDigits base s).2.length ≤ s.length := by
  induction s with
  | nil => simp [takeDigits]
  | cons c rest ih =>
    simp only [takeDigits]
    cases digitVal c with
    | some d =>
      simp only
      split
      · exact Nat.le_trans ih (Nat.le_succ _)
      · exact Nat.le_refl _
    | none => exact Nat.le_refl _

theorem strtoul_rest_length_le (maxVal base : Nat) (s : List Char) :
    (strtoul_model maxVal base s).rest.length ≤ s.length := by
  have hsign : (stripSign (skipSpaces s)).2.length ≤ s.length :=
    Nat.le_trans (stripSign_snd_length_le _) (skipSpaces_length_le s)
  have hdrop : ((stripSign (skipSpaces s)).2.drop 2).length ≤ s.length := by
    rw [List.length_drop]
    omega
  have hbase : ∀ (b : Nat) (t2 : List Char), t2.length ≤ s.length →
      (takeDigits b t2).2.length ≤ s.length := fun b t2 h =>
    Nat.le_trans (takeDigits_rest_length_le b t2) h
  simp only [strtoul_model]
  split
  · split
    · exact Nat.le_refl _
    · split
      · exact hbase _ _ hdrop
      · exact hbase _ _ hdrop
  · split
    · exact Nat.le_refl _
    · split
      · exact hbase _ _ hsign
      · exact hbase _ _ hsign

theorem capture_count_loop_fuel (f1 : Nat) :
    ∀ (f2 : Nat) (env : List Char) (acc : List Nat),
      env.length < f1 → env.length < f2 →
      capture_count_loop f1 env acc = capture_count_loop f2 env acc := by
  induction f1 with
  | zero => intro f2 env acc h1 _; exact absurd h1 (Nat.not_lt_zero _)
  | succ n ih =>
    intro f2 env acc h1 h2
    cases env with
    | nil =>
      cases f2 with
      | zero => rfl
      | succ m => rfl
    | cons c cs =>
      cases f2 with
      | zero => exact absurd h2 (Nat.not_lt_zero _)
      | succ m =>
        have hrest : (strtoul0 (c :: cs)).rest.length ≤ cs.length + 1 := by
          simpa using strtoul_rest_length_le ULONG_MAX 0 (c :: cs)
        have htail : (strtoul0 (c :: cs)).rest.tail.length ≤ cs.length := by
          have h3 := List.length_tail (strtoul0 (c :: cs)).rest
          omega
        have hn : cs.length < n := by
          simp only [List.length_cons] at h1
          omega
        have hm : cs.length < m := by
          simp only [List.length_cons] at h2
          omega
        simp only [capture_count_loop]
        split
        · rfl
        · split
          · exact ih m _ _ (by omega) (by omega)
          · rfl

theorem enable_submit_counter_iff (counts : List Nat) (counter : Nat) :
    vkd3d_renderdoc_enable_submit_counter counts counter = true ↔ counter ∈ counts := by
  induction counts with
  | nil => simp [vkd3d_renderdoc_enable_submit_counter]
  | cons c rest ih =>
    simp only [vkd3d_renderdoc_enable_submit_counter]
    split
    · rename_i hc
      simp [hc]
    · rename_i hc
      rw [ih]
      constructor
      · exact fun h => List.mem_cons_of_mem _ h
      · intro h
        rcases List.mem_cons.mp h with h | h
        · exact absurd h.symm hc
        · exact h

theorem capture_count_loop_acc_prefix (fuel : Nat) :
    ∀ (env : List Char) (acc : List Nat),
      ∃ l, (capture_count_loop fuel env acc).counts = acc ++ l := by
  induction fuel with
  | zero =>
    intro env acc
    cases env with
    | nil => exact ⟨[], by simp [capture_count_loop]⟩
    | cons c cs => exact ⟨[], by simp [capture_count_loop]⟩
  | succ n ih =>
    intro env acc
    cases env with
    | nil => exact ⟨[], by simp [capture_count_loop]⟩
    | cons c cs =>
      simp only [capture_count_loop]
      split
      · exact ⟨[], by simp⟩
      · split
        · obtain ⟨l, hl⟩ := ih (strtoul0 (c :: cs)).rest.tail
            (acc ++ [(strtoul0 (c :: cs)).value % UINT32_MOD])
          exact ⟨(strtoul0 (c :: cs)).value % UINT32_MOD :: l, by simp [hl]⟩
        · split
          · exact ⟨[(strtoul0 (c :: cs)).value % UINT32_MOD], rfl⟩
          · exact ⟨[(strtoul0 (c :: cs)).value % UINT32_MOD], rfl⟩

theorem begin_capture_state (s : RenderdocState) :
    (vkd3d_renderdoc_begin_capture s).2 =
      { s with overall_counter := (s.overall_counter + 1) % UINT32_MOD } := rfl

theorem begin_capture_fst (s : RenderdocState) :
    (vkd3d_renderdoc_begin_capture s).1 =
      vkd3d_renderdoc_enable_submit_counter s.renderdoc_capture_counts
        (begin_capture_observed s) := rfl

theorem UINT32_MOD_pos : 0 < UINT32_MOD := by decide

theorem begin_capture_observed_eq (s : RenderdocState)
    (h : s.overall_counter < UINT32_MOD) :
    begin_capture_observed s = s.overall_counter := by
  unfold begin_capture_observed
  have h1 : (s.overall_counter + 1) % UINT32_MOD + (UINT32_MOD - 1)
      = (s.overall_counter + 1) % UINT32_MOD + (UINT32_MOD - 1) := rfl
  rw [Nat.mod_add_mod]
  have h2 : s.overall_counter + 1 + (UINT32_MOD - 1) = s.overall_counter + UINT32_MOD := by
    have := UINT32_MOD_pos
    omega
  rw [h2, Nat.add_mod_right, Nat.mod_eq_of_lt h]

theorem iterate_fixed_fields (s : RenderdocState) (n : Nat) :
    (iterateBeginCapture s n).renderdoc_capture_counts = s.renderdoc_capture_counts ∧
    (iterateBeginCapture s n).renderdoc_capture_shader_hash = s.renderdoc_capture_shader_hash ∧
    (iterateBeginCapture s n).vkd3d_renderdoc_is_active = s.vkd3d_renderdoc_is_active ∧
    (iterateBeginCapture s n).renderdoc_api = s.renderdoc_api := by
  induction n with
  | zero => exact ⟨rfl, rfl, rfl, rfl⟩
  | succ k ih =>
    simp only [iterateBeginCapture, begin_capture_state]
    exact ih

theorem iterate_counter (s : RenderdocState) (h : s.overall_counter < UINT32_MOD) (n : Nat) :
    (iterateBeginCapture s n).overall_counter = (s.overall_counter + n) % UINT32_MOD := by
  induction n with
  | zero => simp [iterateBeginCapture, Nat.mod_eq_of_lt h]
  | succ k ih =>
    simp only [iterateBeginCapture, begin_capture_state]
    rw [ih, Nat.mod_add_mod]
    congr 1

theorem iterate_counter_lt (s : RenderdocState) (h : s.overall_counter < UINT32_MOD) (n : Nat) :
    (iterateBeginCapture s n).overall_counter < UINT32_MOD := by
  cases n with
  | zero => exact h
  | succ k =>
    rw [iterate_counter s h]
    exact Nat.mod_lt _ UINT32_MOD_pos

/-- Claim C1 counterexample: for the counts spec `1,x,3` the parsed list
is not `[1]`. The code appends the no-conversion result `0` of
`strtoul` for the token `x` before breaking on the unexpected
character, so the list is `[1, 0]`. -/
theorem claim_C1_counterexample :
    (vkd3d_renderdoc_init_capture_count_list ['1', ',', 'x', ',', '3']).counts ≠ [1] := by
  decide

/-- Claim C1 (amended): for the counts spec `1,x,3`, parsing stops at
the token `x` and the trailing `3` is dropped, and an error is logged,
but before stopping the loop appends the value `0` that `strtoul`
returns for the unconvertible token: the resulting list is `[1, 0]`.
In general the indices successfully parsed before the error are kept
(the accumulated list is always a prefix of the result). -/
theorem claim_C1_amended :
    vkd3d_renderdoc_init_capture_count_list ['1', ',', 'x', ',', '3'] =
      ⟨[1, 0], true⟩ ∧
    (∀ (fuel : Nat) (env : List Char) (acc : List Nat),
      ∃ l, (capture_count_loop fuel env acc).counts = acc ++ l) :=
  ⟨by decide, capture_count_loop_acc_prefix⟩

/-- Claim C2 counterexample: with capture enabled by a counts spec that
is present but empty, the parsed list is empty and the very first
`begin_capture` call (the one that observes counter value 0) returns
false, not true. -/
theorem claim_C2_counterexample :
    vkd3d_renderdoc_active (vkd3d_renderdoc_init_once none (some []) false) = true ∧
    (vkd3d_renderdoc_init_once none (some []) false).renderdoc_capture_counts = [] ∧
    (vkd3d_renderdoc_begin_capture (vkd3d_renderdoc_init_once none (some []) false)).1
      = false := by
  refine ⟨rfl, rfl, ?_⟩
  decide

/-- Claim C2 (amended): if capture is enabled and the configured
submission-index list is empty (for example when the counts spec is
present but is the empty string), `begin_capture` returns false for
every call; the capture-submission-0-only behaviour arises only when
the counts spec is absent, through the default list `[0]`. -/
theorem claim_C2_amended (api : Bool) (n : Nat) :
    vkd3d_renderdoc_active (vkd3d_renderdoc_init_once none (some []) api) = true ∧
    (vkd3d_renderdoc_begin_capture
        (iterateBeginCapture (vkd3d_renderdoc_init_once none (some []) api) n)).1 = false := by
  constructor
  · rfl
  · rw [begin_capture_fst, (iterate_fixed_fields _ n).1]
    rfl

/-- Claim C3: after configuration with counts spec `0,2,5`, seven
successive `begin_capture` calls (submission indices 0 through 6)
return true, false, true, false, false, true, false respectively. -/
theorem claim_C3 (api : Bool) :
    runBeginCaptures 7 (vkd3d_renderdoc_init_once none (some ['0', ',', '2', ',', '5']) api)
      = [true, false, true, false, false, true, false] := by
  cases api <;> decide

/-- Claim C4: a `begin_capture` call returns true iff the submission
index it observes (the pre-increment counter value) is a member of the
configured list; when the stored counter is in `uint32_t` range the
observed index is exactly the pre-increment counter; and the return
value does not depend on whether the RenderDoc API handle was
resolved. -/
theorem claim_C4 (s : RenderdocState) :
    ((vkd3d_renderdoc_begin_capture s).1 = true ↔
      begin_capture_observed s ∈ s.renderdoc_capture_counts) ∧
    (s.overall_counter < UINT32_MOD → begin_capture_observed s = s.overall_counter) ∧
    (∀ b : Bool,
      (vkd3d_renderdoc_begin_capture { s with renderdoc_api := b }).1 =
        (vkd3d_renderdoc_begin_capture s).1) := by
  refine ⟨?_, ?_, ?_⟩
  · rw [begin_capture_fst]
    exact enable_submit_counter_iff _ _
  · exact begin_capture_observed_eq s
  · intro b
    rfl

/-- Claim C4 witness: at the concrete state produced by configuring
counts spec `0`, the equivalence holds and the observed index equals
the stored counter. -/
theorem claim_C4_witness :
    ((vkd3d_renderdoc_begin_capture (vkd3d_renderdoc_init_once none (some ['0']) false)).1
        = true ↔
      begin_capture_observed (vkd3d_renderdoc_init_once none (some ['0']) false) ∈
        (vkd3d_renderdoc_init_once none (some ['0']) false).renderdoc_capture_counts) ∧
    begin_capture_observed (vkd3d_renderdoc_init_once none (some ['0']) false) =
      (vkd3d_renderdoc_init_once none (some ['0']) false).overall_counter :=
  ⟨(claim_C4 _).1, (claim_C4 _).2.1 (by decide)⟩

/-- Claim C5: when neither environment input is present, `is_active`
returns false and `begin_capture` returns false for every call, no
matter how many calls went before it. -/
theorem claim_C5 (api : Bool) (n : Nat) :
    vkd3d_renderdoc_active (vkd3d_renderdoc_init_once none none api) = false ∧
    (vkd3d_renderdoc_begin_capture
        (iterateBeginCapture (vkd3d_renderdoc_init_once none none api) n)).1 = false := by
  constructor
  · rfl
  · rw [begin_capture_fst, (iterate_fixed_fields _ n).1]
    rfl

/-- Claim C6: `should_capture_for_hash h` returns true iff the
configured target hash is zero or equals `h`, and the call leaves the
state unchanged. -/
theorem claim_C6 (s : RenderdocState) (h : Nat) :
    ((vkd3d_renderdoc_should_capture_shader_hash s h).1 = true ↔
      (s.renderdoc_capture_shader_hash = 0 ∨ s.renderdoc_capture_shader_hash = h)) ∧
    (vkd3d_renderdoc_should_capture_shader_hash s h).2 = s := by
  constructor
  · simp only [vkd3d_renderdoc_should_capture_shader_hash, Bool.or_eq_true, beq_iff_eq]
    tauto
  · rfl

/-- Claim C7: if the hash spec environment input is absent, or is a
string on which base-16 parsing yields 0 (empty or non-numeric), the
configured target hash is zero and `should_capture_for_hash x` returns
true for every `x`. -/
theorem claim_C7 (env counts : Option (List Char)) (api : Bool) (x : Nat)
    (h : env = none ∨ ∃ e, env = some e ∧ strtoull16 e = 0) :
    (vkd3d_renderdoc_init_once env counts api).renderdoc_capture_shader_hash = 0 ∧
    (vkd3d_renderdoc_should_capture_shader_hash
        (vkd3d_renderdoc_init_once env counts api) x).1 = true := by
  have hz : (vkd3d_renderdoc_init_once env counts api).renderdoc_capture_shader_hash = 0 := by
    rcases h with h | ⟨e, he, hze⟩
    · subst h
      cases counts with
      | none => rfl
      | some c => rfl
    · subst he
      cases counts with
      | none => exact hze
      | some c => exact hze
  refine ⟨hz, ?_⟩
  simp [vkd3d_renderdoc_should_capture_shader_hash, hz]

/-- Claim C7 witness: the hash spec `z` is non-numeric in base 16, so
the configured hash is 0 and an arbitrary hash value 12345 matches. -/
theorem claim_C7_witness :
    (vkd3d_renderdoc_init_once (some ['z']) none false).renderdoc_capture_shader_hash = 0 ∧
    (vkd3d_renderdoc_should_capture_shader_hash
        (vkd3d_renderdoc_init_once (some ['z']) none false) 12345).1 = true :=
  claim_C7 (some ['z']) none false 12345 (Or.inr ⟨['z'], rfl, by decide⟩)

/-- Claim C8: when the counts spec is absent but the hash spec is
present, the configured list is the single-element list `[0]`, and any
`begin_capture` call returns true exactly when it observes submission
index 0. -/
theorem claim_C8 (e : List Char) (api : Bool) (n : Nat) :
    (vkd3d_renderdoc_init_once (some e) none api).renderdoc_capture_counts = [0] ∧
    ((vkd3d_renderdoc_begin_capture
        (iterateBeginCapture (vkd3d_renderdoc_init_once (some e) none api) n)).1 = true ↔
      begin_capture_observed
        (iterateBeginCapture (vkd3d_renderdoc_init_once (some e) none api) n) = 0) := by
  have hc : (vkd3d_renderdoc_init_once (some e) none api).renderdoc_capture_counts = [0] := rfl
  refine ⟨hc, ?_⟩
  rw [begin_capture_fst, (iterate_fixed_fields _ n).1, hc, enable_submit_counter_iff]
  simp

/-- Claim C9 counterexample: the submission counter is a `uint32_t`, so
after `2 ^ 32` sequential `begin_capture` calls it has wrapped back to
0 rather than reaching `2 ^ 32`; in particular the `(2 ^ 32 + 1)`-th
call observes submission index 0, not `2 ^ 32`, contradicting "the
counter only increases and the n-th call observes n-1". -/
theorem claim_C9_counterexample :
    (iterateBeginCapture (vkd3d_renderdoc_init_once none (some ['0']) false)
        UINT32_MOD).overall_counter = 0 ∧
    begin_capture_observed
      (iterateBeginCapture (vkd3d_renderdoc_init_once none (some ['0']) false)
        UINT32_MOD) = 0 ∧
    (0 : Nat) ≠ UINT32_MOD := by
  have hz : (vkd3d_renderdoc_init_once none (some ['0']) false).overall_counter = 0 := rfl
  have h0 : (vkd3d_renderdoc_init_once none (some ['0']) false).overall_counter
      < UINT32_MOD := UINT32_MOD_pos
  have hcnt : (iterateBeginCapture (vkd3d_renderdoc_init_once none (some ['0']) false)
      UINT32_MOD).overall_counter = 0 := by
    rw [iterate_counter _ h0, hz]
    simp
  refine ⟨hcnt, ?_, by decide⟩
  rw [begin_capture_observed_eq _ (iterate_counter_lt _ h0 UINT32_MOD), hcnt]

/-- Claim C9 (amended): every `begin_capture` call increments the
`uint32_t` submission counter by exactly one modulo `2 ^ 32`,
regardless of whether the index matches or the API handle is present;
the counter starts at 0, so in sequential execution the call made
after `n` earlier calls observes submission index `n mod 2 ^ 32` and
leaves the counter at `(n + 1) mod 2 ^ 32`. -/
theorem claim_C9_amended (env counts : Option (List Char)) (api : Bool) (n : Nat) :
    (iterateBeginCapture (vkd3d_renderdoc_init_once env counts api) n).overall_counter
        = n % UINT32_MOD ∧
    begin_capture_observed (iterateBeginCapture (vkd3d_renderdoc_init_once env counts api) n)
        = n % UINT32_MOD ∧
    ((vkd3d_renderdoc_begin_capture
        (iterateBeginCapture (vkd3d_renderdoc_init_once env counts api) n)).2).overall_counter
        = (n + 1) % UINT32_MOD := by
  have h0 : (vkd3d_renderdoc_init_once env counts api).overall_counter = 0 := by
    cases env <;> cases counts <;> rfl
  have hlt : (vkd3d_renderdoc_init_once env counts api).overall_counter < UINT32_MOD := by
    rw [h0]
    exact UINT32_MOD_pos
  have hone : (iterateBeginCapture (vkd3d_renderdoc_init_once env counts api) n).overall_counter
      = n % UINT32_MOD := by
    rw [iterate_counter _ hlt, h0, Nat.zero_add]
  refine ⟨hone, ?_, ?_⟩
  · rw [begin_capture_observed_eq _ (iterate_counter_lt _ hlt n), hone]
  · rw [begin_capture_state]
    simp only
    rw [hone, Nat.mod_add_mod]

/-- Claim C10: during counts-spec parsing, when `strtoul` reports a
range error (`ERANGE`) for the current token, the loop stops without
appending anything and keeps exactly the indices parsed so far (with
the error reported); for every non-`ERANGE` outcome the loop first
appends the converted value of the current token, so the range error
is the only parse failure that does not append a value for the failing
token. -/
theorem claim_C10 (env : List Char) (acc : List Nat) (fuel : Nat) (hne : env ≠ []) :
    ((strtoul0 env).erange = true →
      capture_count_loop (fuel + 1) env acc = ⟨acc, true⟩) ∧
    ((strtoul0 env).erange = false →
      ∃ l, (capture_count_loop (fuel + 1) env acc).counts
        = acc ++ (strtoul0 env).value % UINT32_MOD :: l) := by
  cases env with
  | nil => exact absurd rfl hne
  | cons c cs =>
    constructor
    · intro he
      simp only [capture_count_loop, he]
      simp
    · intro he
      simp only [capture_count_loop, he, Bool.false_eq_true, if_false]
      split
      · obtain ⟨l, hl⟩ := capture_count_loop_acc_prefix fuel (strtoul0 (c :: cs)).rest.tail
          (acc ++ [(strtoul0 (c :: cs)).value % UINT32_MOD])
        refine ⟨l, ?_⟩
        rw [hl]
        simp
      · split
        · exact ⟨[], by simp⟩
        · exact ⟨[], by simp⟩

/-- Claim C10 witness: on the out-of-range token the loop run with a
non-empty accumulated list `[7]` stops, keeps `[7]`, appends nothing
and reports the error. -/
theorem claim_C10_witness :
    erange_example ≠ ([] : List Char) ∧ (strtoul0 erange_example).erange = true ∧
    capture_count_loop 1 erange_example [7] = ⟨[7], true⟩ :=
  ⟨by decide, by decide, (claim_C10 erange_example [7] 0 (by decide)).1 (by decide)⟩
